import Mathlib

/-!
Shallow embedding of the One Piece Hub API backend (src/main.py, src/schemas.py).

Documents stored in MongoDB are modelled as association lists from string keys
to BSON-like values.  HTTP handlers become Lean functions; raising
`HTTPException(500, detail)` is modelled as `Except.error detail`; a 200
response is `Except.ok payload`.  The pymongo driver and the `database`
module (not in src/) are modelled from their documented contracts where used.
-/

namespace OnePieceHub

/-- BSON-like values stored in MongoDB documents (the subset this app uses). -/
inductive BVal where
  | i (n : Int)
  | s (str : String)
  | b (bool : Bool)
  | null
  | arr (l : List BVal)
  | oid (hex : String)
deriving Repr, BEq

/-- A stored document: an association list with (as in a Python dict) unique keys. -/
abbrev Doc := List (String × BVal)

instance [DecidableEq ε] [DecidableEq α] : DecidableEq (Except ε α) := fun a b =>
  match a, b with
  | .error e, .error f => decidable_of_iff (e = f) (by simp)
  | .ok x, .ok y => decidable_of_iff (x = y) (by simp)
  | .error _, .ok _ => isFalse (fun h => Except.noConfusion h)
  | .ok _, .error _ => isFalse (fun h => Except.noConfusion h)

/-- Python `str()` as applied by `serialize_doc` to a stored `_id` value.
In every document MongoDB returns, `_id` is an ObjectId, whose `str` is its
24-character hex form; the remaining cases give a deterministic rendering of
CPython `str` for the other value kinds (never reached on real documents). -/
def bsonStr : BVal → String
  | .oid h => h
  | .s t => t
  | .i n => toString n
  | .b true => "True"
  | .b false => "False"
  | .null => "None"
  | .arr _ => "[...]"

/-- `serialize_doc` from src/main.py lines 60-66: copy the dict and, when an
`_id` key is present, pop it and store its string form under `id` (overwriting
an existing `id` entry in place, else appending, per CPython dict semantics). -/
def serialize_doc (doc : Doc) : Doc :=
  match doc.lookup "_id" with
  | none => doc
  | some v =>
    let d := doc.filter (fun kv => kv.1 != "_id")
    if (d.lookup "id").isSome then
      d.map (fun kv => if kv.1 = "id" then ("id", BVal.s (bsonStr v)) else kv)
    else
      d ++ [("id", BVal.s (bsonStr v))]

/-- The validated `Episode` record of src/schemas.py lines 43-57 (pydantic
model).  URL fields are carried as their string form. -/
structure Episode where
  number : Int
  season : Int
  title : String
  synopsis : Option String
  thumbnail_url : Option String
  poster_url : Option String
  stream_url : Option String
  duration_minutes : Option Int
  tags : List String
  is_featured : Bool
deriving Repr, DecidableEq

/-- Abstraction of pydantic's `HttpUrl` well-formedness check: the scheme must
be http or https and a nonempty remainder must follow.  (pydantic additionally
checks host syntax and a maximum length; no claim depends on that detail.) -/
def isHttpUrl (str : String) : Bool :=
  ("http://".toList.isPrefixOf str.toList && "http://".length < str.length) ||
  ("https://".toList.isPrefixOf str.toList && "https://".length < str.length)

/-- Field validator: required int with `ge=1` (pydantic `Field(..., ge=1)`). -/
def vReqInt (d : Doc) (k : String) : Except String Int :=
  match d.lookup k with
  | some (.i n) => if 1 ≤ n then .ok n else .error k
  | some _ => .error k
  | none => .error k

/-- Field validator for `season`: int with default 1 and `ge=1`. -/
def vSeason (d : Doc) : Except String Int :=
  match d.lookup "season" with
  | some (.i n) => if 1 ≤ n then .ok n else .error "season"
  | some _ => .error "season"
  | none => .ok 1

/-- Field validator for `title`: required string. -/
def vTitle (d : Doc) : Except String String :=
  match d.lookup "title" with
  | some (.s t) => .ok t
  | some _ => .error "title"
  | none => .error "title"

/-- Field validator: `Optional[str]` with default `None`. -/
def vOptStr (d : Doc) (k : String) : Except String (Option String) :=
  match d.lookup k with
  | some (.s t) => .ok (some t)
  | some .null => .ok none
  | some _ => .error k
  | none => .ok none

/-- Field validator: `Optional[HttpUrl]` with default `None`. -/
def vOptUrl (d : Doc) (k : String) : Except String (Option String) :=
  match d.lookup k with
  | some (.s u) => if isHttpUrl u then .ok (some u) else .error k
  | some .null => .ok none
  | some _ => .error k
  | none => .ok none

/-- Field validator for `duration_minutes`: `Optional[int]`, `ge=1, le=240`. -/
def vDuration (d : Doc) : Except String (Option Int) :=
  match d.lookup "duration_minutes" with
  | some (.i n) => if 1 ≤ n ∧ n ≤ 240 then .ok (some n) else .error "duration_minutes"
  | some .null => .ok none
  | some _ => .error "duration_minutes"
  | none => .ok none

/-- Each element of a `List[str]` field must be a string. -/
def vStrList : List BVal → Except String (List String)
  | [] => .ok []
  | .s t :: rest =>
    match vStrList rest with
    | .ok ts => .ok (t :: ts)
    | .error e => .error e
  | _ :: _ => .error "tags"

/-- Field validator for `tags`: `List[str]` with `default_factory=list`. -/
def vTags (d : Doc) : Except String (List String) :=
  match d.lookup "tags" with
  | some (.arr l) => vStrList l
  | some _ => .error "tags"
  | none => .ok []

/-- Field validator for `is_featured`: bool with default `False`. -/
def vFeatured (d : Doc) : Except String Bool :=
  match d.lookup "is_featured" with
  | some (.b c) => .ok c
  | some _ => .error "is_featured"
  | none => .ok false

/-- pydantic validation of the `Episode` model (`Episode(**input)`,
src/schemas.py lines 43-57): every field validator must succeed; extra keys
are ignored (pydantic default config). -/
def episodeValidate (d : Doc) : Except String Episode :=
  (vReqInt d "number").bind fun number =>
  (vSeason d).bind fun season =>
  (vTitle d).bind fun title =>
  (vOptStr d "synopsis").bind fun synopsis =>
  (vOptUrl d "thumbnail_url").bind fun tu =>
  (vOptUrl d "poster_url").bind fun pu =>
  (vOptUrl d "stream_url").bind fun su =>
  (vDuration d).bind fun dm =>
  (vTags d).bind fun tags =>
  (vFeatured d).map fun feat =>
  ⟨number, season, title, synopsis, tu, pu, su, dm, tags, feat⟩

/-- The spec's `validateForCreate` for episodes is exactly pydantic validation
of an untrusted input document against the `Episode` model. -/
def validateForCreate (d : Doc) : Except String Episode := episodeValidate d

/-- An optional string rendered as a stored BSON value (`None` becomes null). -/
def optStrVal : Option String → BVal
  | some t => .s t
  | none => .null

/-- An optional int rendered as a stored BSON value. -/
def optIntVal : Option Int → BVal
  | some n => .i n
  | none => .null

/-- The stored document corresponding to a validated `Episode` record
(pydantic `.dict()` field order, values as MongoDB stores them). -/
def episodeToDoc (e : Episode) : Doc :=
  [("number", .i e.number), ("season", .i e.season), ("title", .s e.title),
   ("synopsis", optStrVal e.synopsis), ("thumbnail_url", optStrVal e.thumbnail_url),
   ("poster_url", optStrVal e.poster_url), ("stream_url", optStrVal e.stream_url),
   ("duration_minutes", optIntVal e.duration_minutes),
   ("tags", .arr (e.tags.map .s)), ("is_featured", .b e.is_featured)]

/-- The spec's `validateForRead` for episodes, as performed at src/main.py
lines 132-134: `serialize_doc` the stored document, then validate everything
except the `id` key against the `Episode` model. -/
def validateForRead (doc : Doc) : Except String Episode :=
  episodeValidate ((serialize_doc doc).filter (fun kv => kv.1 != "id"))

/-- A configured MongoDB database handle together with the contents of the two
collections this app uses (`episode` and `collection`) and the outcome of the
`list_collection_names()` introspection call (which may itself fail). -/
structure DB where
  name : String
  collNames : Except String (List String)
  episode : List Doc
  collection : List Doc
deriving Repr

/-- pymongo `cursor.limit(n)`: `0` means no limit, a negative value caps the
result at its absolute value, a positive value caps at that value. -/
def cursorLimit (limit : Int) (docs : List Doc) : List Doc :=
  if limit = 0 then docs else docs.take limit.natAbs

/-- MongoDB equality of a stored BSON value against a query string: only a
string with the same characters matches (type bracketing). -/
def bvalEqStr (v : BVal) (t : String) : Bool :=
  match v with
  | .s u => u == t
  | _ => false

/-- MongoDB equality of a stored BSON value against a query boolean. -/
def bvalEqBool (v : BVal) (f : Bool) : Bool :=
  match v with
  | .b c => c == f
  | _ => false

/-- MongoDB `{"tags": {"$in": [t]}}` (src/main.py line 125): the document
matches when its `tags` value is an array containing `t`, or is itself the
scalar `t`; a document without the field does not match. -/
def tagMatches (t : String) (d : Doc) : Bool :=
  match d.lookup "tags" with
  | some (.arr l) => l.any (fun v => bvalEqStr v t)
  | some v => bvalEqStr v t
  | none => false

/-- MongoDB `{"is_featured": f}` (src/main.py line 127): the document matches
when its `is_featured` value equals `f` or is an array containing `f`. -/
def featMatches (f : Bool) (d : Doc) : Bool :=
  match d.lookup "is_featured" with
  | some v =>
    bvalEqBool v f ||
      (match v with
       | .arr l => l.any (fun w => bvalEqBool w f)
       | _ => false)
  | none => false

/-- The MongoDB query built by `list_episodes` (src/main.py lines 123-127):
the `tag` condition is added only when `tag` is truthy (not absent and not the
empty string), the `is_featured` condition only when `featured` is not None. -/
def episodeQueryPred (tag : Option String) (featured : Option Bool) (d : Doc) : Bool :=
  (match tag with
   | none => true
   | some t => if t = "" then true else tagMatches t d) &&
  (match featured with
   | none => true
   | some f => featMatches f d)

/-- Left-to-right effectful map over `Except`, as a Python list comprehension
evaluates: the first raised exception aborts the whole computation. -/
def exceptMapM (f : α → Except String β) : List α → Except String (List β)
  | [] => .ok []
  | a :: l =>
    match f a with
    | .error e => .error e
    | .ok bl =>
      match exceptMapM f l with
      | .error e => .error e
      | .ok bs => .ok (bl :: bs)

/-- `GET /episodes` (src/main.py lines 119-134).  An unconfigured store raises
HTTP 500; otherwise the matching documents are capped by `limit`, serialized,
and each is validated against the `Episode` model with its `id` key removed.
A pydantic `ValidationError` on any document aborts the whole response. -/
def list_episodes (db : Option DB) (tag : Option String) (featured : Option Bool)
    (limit : Int) : Except String (List Episode) :=
  match db with
  | none => .error "Database not configured"
  | some st =>
    let items := (cursorLimit limit (st.episode.filter (episodeQueryPred tag featured))).map serialize_doc
    exceptMapM (fun d => episodeValidate (d.filter (fun kv => kv.1 != "id"))) items

/-- `GET /episodes/raw` (src/main.py lines 136-141): raw serialized documents,
capped by `limit` (default 100), unvalidated. -/
def list_episodes_raw (db : Option DB) (limit : Int) : Except String (List Doc) :=
  match db with
  | none => .error "Database not configured"
  | some st => .ok ((cursorLimit limit st.episode).map serialize_doc)

/-- `GET /collections` (src/main.py lines 144-149): raw serialized collection
documents, capped by `limit` (default 50). -/
def list_collections (db : Option DB) (limit : Int) : Except String (List Doc) :=
  match db with
  | none => .error "Database not configured"
  | some st => .ok ((cursorLimit limit st.collection).map serialize_doc)

/-- The three demo episode documents inserted by `POST /seed`
(src/main.py lines 77-114), transcribed verbatim. -/
def demoEpisodes : List Doc :=
  [[("number", .i 1), ("season", .i 1),
    ("title", .s "I\u0027m Luffy! The Man Who\u0027s Gonna Be King of the Pirates!"),
    ("synopsis", .s "Luffy sets out to sea and meets Coby."),
    ("thumbnail_url", .s "https://images.unsplash.com/photo-1545972152-7051e70f47c9?q=80&w=1200&auto=format&fit=crop"),
    ("poster_url", .s "https://images.unsplash.com/photo-1520975922215-2305b8d0b7b6?q=80&w=1600&auto=format&fit=crop"),
    ("stream_url", .s "https://www.w3schools.com/html/mov_bbb.mp4"),
    ("duration_minutes", .i 24),
    ("tags", .arr [.s "luffy", .s "east blue"]),
    ("is_featured", .b true)],
   [("number", .i 2), ("season", .i 1),
    ("title", .s "Enter the Great Swordsman! Pirate Hunter Roronoa Zoro!"),
    ("synopsis", .s "Luffy seeks out the famed swordsman."),
    ("thumbnail_url", .s "https://images.unsplash.com/photo-1612036782180-6f0b6a9a8d2e?q=80&w=1200&auto=format&fit=crop"),
    ("poster_url", .s "https://images.unsplash.com/photo-1522199710521-72d69614c702?q=80&w=1600&auto=format&fit=crop"),
    ("stream_url", .s "https://www.w3schools.com/html/mov_bbb.mp4"),
    ("duration_minutes", .i 24),
    ("tags", .arr [.s "zoro", .s "east blue"]),
    ("is_featured", .b true)],
   [("number", .i 3), ("season", .i 1),
    ("title", .s "Morgan versus Luffy! Who\u0027s the Mysterious Beautiful Young Girl?"),
    ("synopsis", .s "The Straw Hats face Captain Morgan."),
    ("thumbnail_url", .s "https://images.unsplash.com/photo-1606112219348-204d7d8b94ee?q=80&w=1200&auto=format&fit=crop"),
    ("poster_url", .s "https://images.unsplash.com/photo-1520975922215-2305b8d0b7b6?q=80&w=1600&auto=format&fit=crop"),
    ("stream_url", .s "https://www.w3schools.com/html/mov_bbb.mp4"),
    ("duration_minutes", .i 24),
    ("tags", .arr [.s "nami", .s "east blue"]),
    ("is_featured", .b false)]]

/-- The store assigns an ObjectId to each document inserted by `insert_many`;
the ids are supplied here as a parameter (they are store-generated). -/
def attachIds (ids : List String) (docs : List Doc) : List Doc :=
  List.zipWith (fun id d => ("_id", BVal.oid id) :: d) ids docs

/-- Result of `POST /seed` modelled as a record: the seeding branch returns
`{"seeded": True, "count": 3}`, the non-empty branch
`{"seeded": False, "message": "Episodes already exist"}`. -/
structure SeedResult where
  seeded : Bool
  count : Option Nat
  message : Option String
deriving Repr, DecidableEq

/-- `POST /seed` (src/main.py lines 69-116): raises HTTP 500 when the store is
unconfigured; counts the `episode` collection and, only when it is empty,
inserts the three demo documents (ids store-assigned), returning
`count = len(demo) = 3`. -/
def seed_demo (db : Option DB) (ids : List String) : Except String (SeedResult × DB) :=
  match db with
  | none => .error "Database not configured"
  | some st =>
    if st.episode.length > 0 then
      .ok ({ seeded := false, count := none, message := some "Episodes already exist" }, st)
    else
      .ok ({ seeded := true, count := some demoEpisodes.length, message := none },
           { st with episode := st.episode ++ attachIds ids demoEpisodes })

/-- A hexadecimal digit, as accepted by CPython `bytes.fromhex`. -/
def isHexChar (c : Char) : Bool :=
  c.isDigit || ('a' ≤ c && c ≤ 'f') || ('A' ≤ c && c ≤ 'F')

/-- bson `ObjectId(s)` constructor succeeds on a string exactly when it is 24
hexadecimal characters (case-insensitive). -/
def isValidOid (str : String) : Bool :=
  str.length == 24 && str.toList.all isHexChar

/-- Character-wise lowercasing (CPython lowercases the hex rendering). -/
def strToLower (str : String) : String :=
  ⟨str.toList.map Char.toLower⟩

/-- `str(ObjectId(s))`: the canonical lowercase-hex rendering of a valid id
string, `none` when the constructor raises `InvalidId`. -/
def oidCanon (str : String) : Option String :=
  if isValidOid str then some (strToLower str) else none

/-- The `POST /collections` request body (src/main.py lines 151-155). -/
structure CreateCollectionRequest where
  title : String
  description : Option String := none
  episode_ids : List String := []
  cover_url : Option String := none
deriving Repr, DecidableEq

/-- The document persisted for a collection: `payload.dict()` in field order
with `episode_ids` overwritten by the filtered ids (src/main.py lines 161-169). -/
def collectionToDoc (p : CreateCollectionRequest) (validIds : List String) : Doc :=
  [("title", .s p.title), ("description", optStrVal p.description),
   ("episode_ids", .arr (validIds.map .s)), ("cover_url", optStrVal p.cover_url)]

/-- `POST /collections` (src/main.py lines 157-171): raises HTTP 500 when the
store is unconfigured; otherwise each supplied episode id is passed through
`str(ObjectId(eid))`, entries raising `InvalidId` being skipped, and the
resulting document is inserted.  `create_document` lives in the `database`
module (not under src/); modelled from the spec, section 4.1:
`insertOne(collection, document) -> identifier` appends the document (with its
store-assigned `_id`, supplied here as `newId`) and returns the identifier. -/
def create_collection (db : Option DB) (p : CreateCollectionRequest)
    (newId : String) : Except String (String × DB) :=
  match db with
  | none => .error "Database not configured"
  | some st =>
    let valid_ids := p.episode_ids.filterMap oidCanon
    .ok (newId,
      { st with collection := st.collection ++ [("_id", BVal.oid newId) :: collectionToDoc p valid_ids] })

/-- Whether the `DATABASE_URL` and `DATABASE_NAME` environment variables are
set (read by `/test`, src/main.py lines 53-54). -/
structure Env where
  url_set : Bool
  name_set : Bool
deriving Repr, DecidableEq

/-- The diagnostic object returned by `GET /test`. -/
structure TestResponse where
  backend : String
  database : String
  database_url : String
  database_name : String
  connection_status : String
  collections : List String
deriving Repr

/-- A well-formed optional URL field value. -/
def urlOkB : Option String → Bool
  | none => true
  | some u => isHttpUrl u

/-- A well-formed optional duration field value. -/
def durOkB : Option Int → Bool
  | none => true
  | some n => decide (1 ≤ n ∧ n ≤ 240)

/-- A validated `Episode` record satisfies its schema: positive `number` and
`season`, well-formed URLs where present, `duration_minutes` within [1,240]
where present. -/
def EpisodeWF (e : Episode) : Prop :=
  1 ≤ e.number ∧ 1 ≤ e.season ∧ urlOkB e.thumbnail_url = true ∧
  urlOkB e.poster_url = true ∧ urlOkB e.stream_url = true ∧
  durOkB e.duration_minutes = true

instance (e : Episode) : Decidable (EpisodeWF e) := by
  unfold EpisodeWF
  infer_instance

/-- `GET /test` (src/main.py lines 25-56).  Every check is guarded: with no
configured handle the `database` field reports the initialization state; with
a handle, a failing `list_collection_names()` sub-query degrades the field to
an error string (truncated to 50 characters) instead of raising.  The final
`database_url`/`database_name` fields only reflect the environment flags. -/
def test_database (db : Option DB) (env : Env) : TestResponse :=
  let dbPart : String × String × List String :=
    match db with
    | none => ("⚠️  Available but not initialized", "Not Connected", [])
    | some st =>
      match st.collNames with
      | .ok names => ("✅ Connected & Working", "Connected", names.take 10)
      | .error e => ("⚠️  Connected but Error: " ++ e.take 50, "Connected", [])
  { backend := "✅ Running",
    database := dbPart.1,
    database_url := if env.url_set then "✅ Set" else "❌ Not Set",
    database_name := if env.name_set then "✅ Set" else "❌ Not Set",
    connection_status := dbPart.2.1,
    collections := dbPart.2.2 }

/-- The stored form of an episode: the fields of the validated record behind a
store-assigned `_id`. -/
def storedEpisode (p : String × Episode) : Doc :=
  ("_id", BVal.oid p.1) :: episodeToDoc p.2

/-! ### Concrete data used by witnesses and counterexamples -/

/-- A small valid episode record. -/
def exEp : Episode := ⟨1, 1, "t", none, some "http://x", none, none, some 24, ["a"], true⟩

/-- A small valid episode input document (note: key order differs from the
model and the optional fields are absent). -/
def exDoc : Doc :=
  [("title", .s "t"), ("number", .i 1), ("thumbnail_url", .s "http://x"),
   ("duration_minutes", .i 24), ("tags", .arr [.s "a"]), ("is_featured", .b true)]

/-- A configured database with empty collections. -/
def exDB0 : DB := ⟨"db", .ok [], [], []⟩

/-- A configured database with one stored (unvalidated) raw episode document. -/
def exRawDB : DB := ⟨"db", .ok [], [[("number", BVal.i 1)]], []⟩

/-- A configured database with one stored well-formed episode. -/
def exDB1 : DB := ⟨"db", .ok [], [storedEpisode ("aaaaaaaaaaaaaaaaaaaaaaaa", exEp)], []⟩

/-- A collection-creation request carrying one uppercase (but syntactically
valid) episode id. -/
def exReq : CreateCollectionRequest := { title := "t", episode_ids := ["AAAAAAAAAAAAAAAAAAAAAAAA"] }

/-- Three stored episodes mirroring the spec's tag/featured filtering test. -/
def epA : Episode := ⟨1, 1, "e1", none, none, none, none, none, ["luffy", "east blue"], true⟩

def epB : Episode := ⟨2, 1, "e2", none, none, none, none, none, ["zoro", "east blue"], true⟩

def epC : Episode := ⟨3, 1, "e3", none, none, none, none, none, ["nami", "east blue"], false⟩

def exEps : List (String × Episode) :=
  [("aaaaaaaaaaaaaaaaaaaaaaaa", epA), ("bbbbbbbbbbbbbbbbbbbbbbbb", epB),
   ("cccccccccccccccccccccccc", epC)]

def exDB3 : DB := ⟨"db", .ok [], exEps.map storedEpisode, []⟩

/-! ### Helper lemmas -/

theorem except_bind_ok {ε α β : Type} {x : Except ε α} {f : α → Except ε β} {b : β}
    (h : x.bind f = .ok b) : ∃ a, x = .ok a ∧ f a = .ok b := by
  cases x with
  | error e => simp [Except.bind] at h
  | ok a => exact ⟨a, rfl, h⟩

theorem except_map_ok {ε α β : Type} {x : Except ε α} {g : α → β} {b : β}
    (h : x.map g = .ok b) : ∃ a, x = .ok a ∧ g a = b := by
  cases x with
  | error e => simp [Except.map] at h
  | ok a => exact ⟨a, rfl, by injection h⟩

theorem vReqInt_ok {d : Doc} {k : String} {n : Int} (h : vReqInt d k = .ok n) : 1 ≤ n := by
  unfold vReqInt at h
  split at h <;> try exact absurd h (by simp)
  split at h
  · injection h with h
    omega
  · exact absurd h (by simp)

theorem vSeason_ok {d : Doc} {n : Int} (h : vSeason d = .ok n) : 1 ≤ n := by
  unfold vSeason at h
  split at h
  · split at h
    · injection h with h
      omega
    · exact absurd h (by simp)
  · exact absurd h (by simp)
  · injection h with h
    omega

theorem vOptUrl_ok {d : Doc} {k : String} {o : Option String}
    (h : vOptUrl d k = .ok o) : urlOkB o = true := by
  unfold vOptUrl at h
  split at h
  · split at h
    · injection h with h
      subst h
      simpa [urlOkB] using by assumption
    · exact absurd h (by simp)
  · injection h with h
    subst h
    rfl
  · exact absurd h (by simp)
  · injection h with h
    subst h
    rfl

theorem vDuration_ok {d : Doc} {o : Option Int}
    (h : vDuration d = .ok o) : durOkB o = true := by
  unfold vDuration at h
  split at h
  · split at h
    · injection h with h
      subst h
      simpa [durOkB] using by assumption
    · exact absurd h (by simp)
  · injection h with h
    subst h
    rfl
  · exact absurd h (by simp)
  · injection h with h
    subst h
    rfl

theorem episodeValidate_ok_wf {d : Doc} {e : Episode}
    (h : episodeValidate d = .ok e) : EpisodeWF e := by
  unfold episodeValidate at h
  obtain ⟨number, hn, h⟩ := except_bind_ok h
  obtain ⟨season, hs, h⟩ := except_bind_ok h
  obtain ⟨title, ht, h⟩ := except_bind_ok h
  obtain ⟨syn, hsy, h⟩ := except_bind_ok h
  obtain ⟨tu, htu, h⟩ := except_bind_ok h
  obtain ⟨pu, hpu, h⟩ := except_bind_ok h
  obtain ⟨su, hsu, h⟩ := except_bind_ok h
  obtain ⟨dm, hdm, h⟩ := except_bind_ok h
  obtain ⟨tags, htg, h⟩ := except_bind_ok h
  obtain ⟨feat, hf, he⟩ := except_map_ok h
  subst he
  exact ⟨vReqInt_ok hn, vSeason_ok hs, vOptUrl_ok htu, vOptUrl_ok hpu,
         vOptUrl_ok hsu, vDuration_ok hdm⟩

theorem vStrList_map (l : List String) : vStrList (l.map .s) = .ok l := by
  induction l with
  | nil => rfl
  | cons a l ih => simp [List.map, vStrList, ih]

theorem episodeValidate_toDoc {e : Episode} (hwf : EpisodeWF e) :
    episodeValidate (episodeToDoc e) = .ok e := by
  obtain ⟨h1, h2, h3, h4, h5, h6⟩ := hwf
  have hn : vReqInt (episodeToDoc e) "number" = .ok e.number := by
    show (if 1 ≤ e.number then (Except.ok e.number : Except String Int)
          else .error "number") = .ok e.number
    rw [if_pos h1]
  have hs : vSeason (episodeToDoc e) = .ok e.season := by
    show (if 1 ≤ e.season then (Except.ok e.season : Except String Int)
          else .error "season") = .ok e.season
    rw [if_pos h2]
  have ht : vTitle (episodeToDoc e) = .ok e.title := rfl
  have hsy : vOptStr (episodeToDoc e) "synopsis" = .ok e.synopsis := by
    rcases e with ⟨num, sea, tit, syn, tu, pu, su, dm, tg, ft⟩
    cases syn <;> rfl
  have htu : vOptUrl (episodeToDoc e) "thumbnail_url" = .ok e.thumbnail_url := by
    rcases e with ⟨num, sea, tit, syn, tu, pu, su, dm, tg, ft⟩
    cases tu with
    | none => rfl
    | some u =>
      simp only [urlOkB] at h3
      show (if isHttpUrl u = true then (Except.ok (some u) : Except String (Option String))
            else .error "thumbnail_url") = .ok (some u)
      rw [if_pos h3]
  have hpu : vOptUrl (episodeToDoc e) "poster_url" = .ok e.poster_url := by
    rcases e with ⟨num, sea, tit, syn, tu, pu, su, dm, tg, ft⟩
    cases pu with
    | none => rfl
    | some u =>
      simp only [urlOkB] at h4
      show (if isHttpUrl u = true then (Except.ok (some u) : Except String (Option String))
            else .error "poster_url") = .ok (some u)
      rw [if_pos h4]
  have hsu : vOptUrl (episodeToDoc e) "stream_url" = .ok e.stream_url := by
    rcases e with ⟨num, sea, tit, syn, tu, pu, su, dm, tg, ft⟩
    cases su with
    | none => rfl
    | some u =>
      simp only [urlOkB] at h5
      show (if isHttpUrl u = true then (Except.ok (some u) : Except String (Option String))
            else .error "stream_url") = .ok (some u)
      rw [if_pos h5]
  have hdm : vDuration (episodeToDoc e) = .ok e.duration_minutes := by
    rcases e with ⟨num, sea, tit, syn, tu, pu, su, dm, tg, ft⟩
    cases dm with
    | none => rfl
    | some n =>
      simp only [durOkB, decide_eq_true_eq] at h6
      show (if 1 ≤ n ∧ n ≤ 240 then (Except.ok (some n) : Except String (Option Int))
            else .error "duration_minutes") = .ok (some n)
      rw [if_pos h6]
  have htg : vTags (episodeToDoc e) = .ok e.tags := by
    unfold vTags
    show vStrList (e.tags.map .s) = .ok e.tags
    exact vStrList_map e.tags
  have hf : vFeatured (episodeToDoc e) = .ok e.is_featured := rfl
  unfold episodeValidate
  rw [hn, hs, ht, hsy, htu, hpu, hsu, hdm, htg, hf]
  rfl

theorem stored_strip (h : String) (e : Episode) :
    (serialize_doc (("_id", BVal.oid h) :: episodeToDoc e)).filter
      (fun kv => kv.1 != "id") = episodeToDoc e := rfl

theorem exceptMapM_ok_iff {α β : Type} {f : α → Except String β} {l : List α} :
    (∃ ys, exceptMapM f l = .ok ys) ↔ ∀ x ∈ l, ∃ y, f x = .ok y := by
  induction l with
  | nil => simp [exceptMapM]
  | cons a l ih =>
    constructor
    · rintro ⟨ys, hys⟩
      unfold exceptMapM at hys
      split at hys
      · exact absurd hys (by simp)
      · split at hys
        · exact absurd hys (by simp)
        · intro x hx
          rcases List.mem_cons.mp hx with hx | hx
          · subst hx
            exact ⟨_, by assumption⟩
          · exact ih.mp ⟨_, by assumption⟩ x hx
    · intro hall
      obtain ⟨b, hb⟩ := hall a (List.mem_cons_self a l)
      obtain ⟨bs, hbs⟩ := ih.mpr (fun x hx => hall x (List.mem_cons_of_mem a hx))
      exact ⟨b :: bs, by unfold exceptMapM; rw [hb, hbs]⟩

theorem exceptMapM_ok_mem {α β : Type} {f : α → Except String β} {l : List α} {ys : List β}
    (h : exceptMapM f l = .ok ys) : ∀ y ∈ ys, ∃ x ∈ l, f x = .ok y := by
  induction l generalizing ys with
  | nil =>
    injection h with h
    subst h
    simp
  | cons a l ih =>
    unfold exceptMapM at h
    split at h
    · exact absurd h (by simp)
    · split at h
      · exact absurd h (by simp)
      · injection h with h
        subst h
        intro y hy
        rcases List.mem_cons.mp hy with hy | hy
        · subst hy
          exact ⟨a, List.mem_cons_self a l, by assumption⟩
        · obtain ⟨x, hx, hfx⟩ := ih (by assumption) y hy
          exact ⟨x, List.mem_cons_of_mem a hx, hfx⟩

theorem exceptMapM_ok_length {α β : Type} {f : α → Except String β} {l : List α} {ys : List β}
    (h : exceptMapM f l = .ok ys) : ys.length = l.length := by
  induction l generalizing ys with
  | nil =>
    injection h with h
    subst h
    rfl
  | cons a l ih =>
    unfold exceptMapM at h
    split at h
    · exact absurd h (by simp)
    · split at h
      · exact absurd h (by simp)
      · injection h with h
        subst h
        simpa using ih (by assumption)

theorem exceptMapM_congr {α β : Type} {f : α → Except String β} {g : α → β} {l : List α}
    (h : ∀ x ∈ l, f x = .ok (g x)) : exceptMapM f l = .ok (l.map g) := by
  induction l with
  | nil => rfl
  | cons a l ih =>
    unfold exceptMapM
    rw [h a (List.mem_cons_self a l), ih (fun x hx => h x (List.mem_cons_of_mem a hx))]
    rfl

theorem exceptMapM_map {α β γ : Type} (f : β → Except String γ) (g : α → β) (l : List α) :
    exceptMapM f (l.map g) = exceptMapM (fun x => f (g x)) l := by
  induction l with
  | nil => rfl
  | cons a l ih =>
    simp only [List.map_cons, exceptMapM, ih]

theorem cursorLimit_length_le (limit : Int) (docs : List Doc) (h : 1 ≤ limit) :
    ((cursorLimit limit docs).length : Int) ≤ limit := by
  unfold cursorLimit
  rw [if_neg (by omega)]
  have := List.length_take limit.natAbs docs
  omega

theorem cursorLimit_all {limit : Int} {docs : List Doc}
    (h : limit = 0 ∨ (docs.length : Int) ≤ limit) : cursorLimit limit docs = docs := by
  unfold cursorLimit
  rcases h with h | h
  · rw [if_pos h]
  · by_cases h0 : limit = 0
    · rw [if_pos h0]
    · rw [if_neg h0]
      exact List.take_of_length_le (by omega)

theorem strBeq_comm (a b : String) : (a == b) = (b == a) := by
  by_cases h : a = b
  · subst h
    rfl
  · rw [beq_eq_false_iff_ne.mpr h, beq_eq_false_iff_ne.mpr (Ne.symm h)]

theorem any_bvalEqStr (l : List String) (t : String) :
    (l.map BVal.s).any (fun v => bvalEqStr v t) = l.contains t := by
  induction l with
  | nil => rfl
  | cons a l ih =>
    simp only [List.map_cons, List.any_cons, ih, List.contains_cons]
    rw [show bvalEqStr (BVal.s a) t = (a == t) from rfl, strBeq_comm a t]

theorem tagMatches_stored (t : String) (p : String × Episode) :
    tagMatches t (storedEpisode p) = p.2.tags.contains t := by
  show (p.2.tags.map BVal.s).any (fun v => bvalEqStr v t) = p.2.tags.contains t
  exact any_bvalEqStr p.2.tags t

theorem featMatches_stored (f : Bool) (p : String × Episode) :
    featMatches f (storedEpisode p) = (p.2.is_featured == f) := by
  show (bvalEqBool (BVal.b p.2.is_featured) f || false) = (p.2.is_featured == f)
  rw [Bool.or_false]
  rfl

theorem stored_read_ok {p : String × Episode} (hwf : EpisodeWF p.2) :
    episodeValidate ((serialize_doc (storedEpisode p)).filter (fun kv => kv.1 != "id"))
      = .ok p.2 := by
  show episodeValidate ((serialize_doc (("_id", BVal.oid p.1) :: episodeToDoc p.2)).filter
        (fun kv => kv.1 != "id")) = .ok p.2
  rw [stored_strip]
  exact episodeValidate_toDoc hwf

theorem list_episodes_stored (st : DB) (eps : List (String × Episode))
    (tag : Option String) (featured : Option Bool) (limit : Int)
    (sem : String × Episode → Bool)
    (hst : st.episode = eps.map storedEpisode)
    (hwf : ∀ p ∈ eps, EpisodeWF p.2)
    (hlim : limit = 0 ∨ (eps.length : Int) ≤ limit)
    (hsem : ∀ p ∈ eps, episodeQueryPred tag featured (storedEpisode p) = sem p) :
    list_episodes (some st) tag featured limit = .ok ((eps.filter sem).map Prod.snd) := by
  show exceptMapM (fun d => episodeValidate (d.filter (fun kv => kv.1 != "id")))
        ((cursorLimit limit (st.episode.filter (episodeQueryPred tag featured))).map serialize_doc)
      = .ok ((eps.filter sem).map Prod.snd)
  rw [hst, List.filter_map]
  have hfil : eps.filter (episodeQueryPred tag featured ∘ storedEpisode) = eps.filter sem :=
    List.filter_congr (fun p hp => hsem p hp)
  rw [hfil]
  have hall : cursorLimit limit ((eps.filter sem).map storedEpisode)
      = (eps.filter sem).map storedEpisode := by
    apply cursorLimit_all
    rcases hlim with h | h
    · exact Or.inl h
    · right
      rw [List.length_map]
      have := List.length_filter_le sem eps
      omega
  rw [hall, exceptMapM_map, exceptMapM_map]
  exact exceptMapM_congr
    (fun p hp => stored_read_ok (hwf p (List.mem_of_mem_filter hp)))

/-! ### Claims -/

/-- C1: for every valid Episode input, `validateForCreate` followed by
`validateForRead` of the stored document round-trips all fields unchanged
except identity assignment, and `serialize_doc` strips the store-internal
`_id` field, renaming it into the public `id` field. -/
theorem create_read_roundtrip (d : Doc) (e : Episode) (h : String)
    (hc : validateForCreate d = .ok e) :
    validateForRead (("_id", BVal.oid h) :: episodeToDoc e) = .ok e ∧
    serialize_doc (("_id", BVal.oid h) :: episodeToDoc e)
      = episodeToDoc e ++ [("id", BVal.s h)] := by
  have hwf : EpisodeWF e := episodeValidate_ok_wf hc
  constructor
  · unfold validateForRead
    rw [stored_strip]
    exact episodeValidate_toDoc hwf
  · rfl

theorem create_read_roundtrip_witness :
    validateForRead (("_id", BVal.oid "aaaaaaaaaaaaaaaaaaaaaaaa") :: episodeToDoc exEp)
        = .ok exEp ∧
    serialize_doc (("_id", BVal.oid "aaaaaaaaaaaaaaaaaaaaaaaa") :: episodeToDoc exEp)
      = episodeToDoc exEp ++ [("id", BVal.s "aaaaaaaaaaaaaaaaaaaaaaaa")] :=
  create_read_roundtrip exDoc exEp "aaaaaaaaaaaaaaaaaaaaaaaa" (by decide)

/-- C10: `GET /episodes` with an empty-string `tag` parameter applies no tag
filter at all — it returns exactly what a request without the parameter
returns, for every store state, `featured` value and `limit`. -/
theorem empty_tag_no_filter (db : Option DB) (featured : Option Bool) (limit : Int) :
    list_episodes db (some "") featured limit = list_episodes db none featured limit := rfl

/-- C8: with the store adapter unconfigured (`db is None`), every data
endpoint returns HTTP 500 (`"Database not configured"`) without touching any
store state, while the diagnostics endpoint still responds 200, reporting the
backend as running. -/
theorem unconfigured_store_500 :
    (∀ ids : List String, seed_demo none ids = .error "Database not configured") ∧
    (∀ (tag : Option String) (featured : Option Bool) (limit : Int),
      list_episodes none tag featured limit = .error "Database not configured") ∧
    (∀ limit : Int, list_episodes_raw none limit = .error "Database not configured") ∧
    (∀ limit : Int, list_collections none limit = .error "Database not configured") ∧
    (∀ (p : CreateCollectionRequest) (newId : String),
      create_collection none p newId = .error "Database not configured") ∧
    (∀ env : Env, (test_database none env).backend = "✅ Running" ∧
      (test_database none env).database = "⚠️  Available but not initialized") :=
  ⟨fun _ => rfl, fun _ _ _ => rfl, fun _ => rfl, fun _ => rfl, fun _ _ => rfl,
   fun _ => ⟨rfl, rfl⟩⟩

/-- C9: `GET /test` never raises: it is a total function returning a 200
diagnostic object whose `database` field is a descriptive status string for
every store state — unconfigured, working, or failing on the sub-query. -/
theorem test_endpoint_never_raises (db : Option DB) (env : Env) :
    (test_database db env).backend = "✅ Running" ∧
    (db = none → (test_database db env).database = "⚠️  Available but not initialized") ∧
    (∀ st : DB, db = some st →
      (∀ names, st.collNames = .ok names →
        (test_database db env).database = "✅ Connected & Working" ∧
        (test_database db env).collections = names.take 10) ∧
      (∀ msg, st.collNames = .error msg →
        (test_database db env).database = "⚠️  Connected but Error: " ++ msg.take 50)) := by
  cases db with
  | none =>
    exact ⟨rfl, fun _ => rfl, fun st hst => Option.noConfusion hst⟩
  | some st =>
    refine ⟨rfl, fun hn => Option.noConfusion hn, fun st2 hst => ?_⟩
    injection hst with hst
    subst hst
    constructor
    · intro names hn
      constructor <;> simp [test_database, hn]
    · intro msg hm
      simp [test_database, hm]

theorem test_endpoint_never_raises_witness :
    (test_database none ⟨false, false⟩).database = "⚠️  Available but not initialized" :=
  (test_endpoint_never_raises none ⟨false, false⟩).2.1 rfl

/-- C2: the validated `GET /episodes` path succeeds exactly when every
document it processes passes `Episode` schema validation — a single failing
stored document aborts the whole response — and on success every returned
record satisfies the full schema and no record was silently skipped. -/
theorem episodes_schema_gate (st : DB) (tag : Option String) (featured : Option Bool)
    (limit : Int) :
    ((∃ es, list_episodes (some st) tag featured limit = .ok es) ↔
      ∀ d ∈ (cursorLimit limit (st.episode.filter (episodeQueryPred tag featured))).map
          serialize_doc,
        ∃ e, episodeValidate (d.filter (fun kv => kv.1 != "id")) = .ok e) ∧
    (∀ es, list_episodes (some st) tag featured limit = .ok es →
      (∀ e ∈ es, EpisodeWF e) ∧
      es.length
        = (cursorLimit limit (st.episode.filter (episodeQueryPred tag featured))).length) := by
  constructor
  · exact exceptMapM_ok_iff
  · intro es hes
    have hes : exceptMapM (fun d => episodeValidate (d.filter (fun kv => kv.1 != "id")))
        ((cursorLimit limit (st.episode.filter (episodeQueryPred tag featured))).map
          serialize_doc) = .ok es := hes
    constructor
    · intro e he
      obtain ⟨d, _, hd⟩ := exceptMapM_ok_mem hes e he
      exact episodeValidate_ok_wf hd
    · rw [exceptMapM_ok_length hes, List.length_map]

theorem episodes_schema_gate_witness :
    (∀ e ∈ [exEp], EpisodeWF e) ∧
    ([exEp] : List Episode).length
      = (cursorLimit 50 (exDB1.episode.filter (episodeQueryPred none none))).length :=
  (episodes_schema_gate exDB1 none none 50).2 [exEp] (by decide)

/-- C4: with the store configured, `POST /seed` from an empty episode
collection seeds the three demo documents and returns
`{seeded: true, count: 3}`, leaving the collection non-empty; an immediate
second call returns `{seeded: false, ...}` and inserts nothing; in general the
demo set is inserted only when the collection is currently empty. -/
theorem seed_twice :
    (∀ (st : DB) (ids : List String), st.episode = [] → ids.length = 3 →
      seed_demo (some st) ids
          = .ok ({ seeded := true, count := some 3, message := none },
                 { st with episode := st.episode ++ attachIds ids demoEpisodes }) ∧
        ({ st with episode := st.episode ++ attachIds ids demoEpisodes } : DB).episode ≠ [] ∧
        (∀ ids2 : List String,
          seed_demo (some { st with episode := st.episode ++ attachIds ids demoEpisodes }) ids2
            = .ok ({ seeded := false, count := none, message := some "Episodes already exist" },
                   { st with episode := st.episode ++ attachIds ids demoEpisodes }))) ∧
    (∀ (st : DB) (ids : List String), st.episode ≠ [] →
      seed_demo (some st) ids
        = .ok ({ seeded := false, count := none, message := some "Episodes already exist" },
               st)) := by
  have hne : ∀ (st : DB) (ids : List String), st.episode ≠ [] →
      seed_demo (some st) ids
        = .ok ({ seeded := false, count := none, message := some "Episodes already exist" },
               st) := by
    intro st ids h
    simp only [seed_demo]
    rw [if_pos (List.length_pos.mpr h)]
  refine ⟨?_, hne⟩
  intro st ids hemp hlen
  have hlen3 : (st.episode ++ attachIds ids demoEpisodes).length = 3 := by
    rw [hemp, List.nil_append]
    rw [show attachIds ids demoEpisodes
          = List.zipWith (fun id d => ("_id", BVal.oid id) :: d) ids demoEpisodes from rfl]
    rw [List.length_zipWith, hlen]
    rfl
  have hne2 : ({ st with episode := st.episode ++ attachIds ids demoEpisodes } : DB).episode
      ≠ [] := by
    intro hc
    rw [show ({ st with episode := st.episode ++ attachIds ids demoEpisodes } : DB).episode
          = st.episode ++ attachIds ids demoEpisodes from rfl] at hc
    rw [hc] at hlen3
    exact absurd hlen3 (by decide)
  refine ⟨?_, hne2, fun ids2 => hne _ ids2 hne2⟩
  simp only [seed_demo]
  rw [if_neg (by rw [hemp]; decide)]
  rfl

theorem seed_twice_witness :
    seed_demo (some exDB0) ["a", "b", "c"]
      = .ok ({ seeded := true, count := some 3, message := none },
             { exDB0 with episode := exDB0.episode ++ attachIds ["a", "b", "c"] demoEpisodes }) :=
  (seed_twice.1 exDB0 ["a", "b", "c"] rfl rfl).1

theorem filterMap_oidCanon (l : List String) :
    l.filterMap oidCanon = (l.filter isValidOid).map strToLower := by
  induction l with
  | nil => rfl
  | cons a l ih =>
    by_cases h : isValidOid a
    · simp [List.filterMap_cons, List.filter_cons, oidCanon, h, ih]
    · simp [List.filterMap_cons, List.filter_cons, oidCanon, h, ih]

/-- C5 counterexample: the claim says every syntactically valid `episode_ids`
entry is retained, but a valid uppercase-hex id is persisted in lowercase
form: the supplied entry itself is not in the persisted sequence. -/
theorem episode_ids_case_counterexample :
    isValidOid "AAAAAAAAAAAAAAAAAAAAAAAA" = true ∧
    create_collection (some exDB0) exReq "cccccccccccccccccccccccc"
      = .ok ("cccccccccccccccccccccccc",
          { exDB0 with collection :=
              [[("_id", BVal.oid "cccccccccccccccccccccccc"), ("title", BVal.s "t"),
                ("description", BVal.null),
                ("episode_ids", BVal.arr [BVal.s "aaaaaaaaaaaaaaaaaaaaaaaa"]),
                ("cover_url", BVal.null)]] }) ∧
    BVal.s "AAAAAAAAAAAAAAAAAAAAAAAA" ∉ [BVal.s "aaaaaaaaaaaaaaaaaaaaaaaa"] := by
  refine ⟨rfl, rfl, ?_⟩
  intro hm
  rcases List.mem_singleton.mp hm with h
  simp at h

/-- C5 amended: for every `POST /collections` request, entries of
`episode_ids` that are not 24-hex-character ids are silently dropped (the
request still succeeds), each syntactically valid entry is retained in
canonical lowercase form regardless of whether a referenced episode exists,
the relative order of retained entries is preserved, and the episode store is
not consulted or modified. -/
theorem episode_ids_filtering (st : DB) (p : CreateCollectionRequest) (newId : String) :
    create_collection (some st) p newId
      = .ok (newId,
          { st with collection := st.collection ++
              [("_id", BVal.oid newId) ::
                collectionToDoc p ((p.episode_ids.filter isValidOid).map strToLower)] }) := by
  have h : create_collection (some st) p newId
      = Except.ok (newId,
          { st with collection := st.collection ++
              [("_id", BVal.oid newId) ::
                collectionToDoc p (p.episode_ids.filterMap oidCanon)] }) := rfl
  rw [h, filterMap_oidCanon]

/-- C6: episode validation rejects every input whose `duration_minutes` lies
outside [1, 240] and every input whose `number` or `season` is not positive,
and accepts such fields otherwise, with `season` defaulting to 1 and
`duration_minutes` optional. -/
theorem episode_range_validation :
    (∀ (d : Doc) (n : Int), d.lookup "duration_minutes" = some (.i n) →
        (n < 1 ∨ 240 < n) → ∃ msg, episodeValidate d = .error msg) ∧
    (∀ (d : Doc) (n : Int), d.lookup "number" = some (.i n) →
        n ≤ 0 → ∃ msg, episodeValidate d = .error msg) ∧
    (∀ (d : Doc) (n : Int), d.lookup "season" = some (.i n) →
        n ≤ 0 → ∃ msg, episodeValidate d = .error msg) ∧
    (∀ (num sea dur : Int) (t : String), 1 ≤ num → 1 ≤ sea → 1 ≤ dur → dur ≤ 240 →
        episodeValidate [("number", .i num), ("season", .i sea), ("title", .s t),
            ("duration_minutes", .i dur)]
          = .ok ⟨num, sea, t, none, none, none, none, some dur, [], false⟩) ∧
    (∀ (num : Int) (t : String), 1 ≤ num →
        episodeValidate [("number", .i num), ("title", .s t)]
          = .ok ⟨num, 1, t, none, none, none, none, none, [], false⟩) := by
  have herr : ∀ (d : Doc), (∀ e, episodeValidate d ≠ .ok e) →
      ∃ msg, episodeValidate d = .error msg := by
    intro d hno
    cases h : episodeValidate d with
    | ok e => exact absurd h (hno e)
    | error msg => exact ⟨msg, rfl⟩
  refine ⟨?_, ?_, ?_, ?_, ?_⟩
  · intro d n hlk hrange
    apply herr
    intro e hok
    unfold episodeValidate at hok
    obtain ⟨number, hn, hok⟩ := except_bind_ok hok
    obtain ⟨season, hs, hok⟩ := except_bind_ok hok
    obtain ⟨title, ht, hok⟩ := except_bind_ok hok
    obtain ⟨syn, hsy, hok⟩ := except_bind_ok hok
    obtain ⟨tu, htu, hok⟩ := except_bind_ok hok
    obtain ⟨pu, hpu, hok⟩ := except_bind_ok hok
    obtain ⟨su, hsu, hok⟩ := except_bind_ok hok
    obtain ⟨dm, hdm, hok⟩ := except_bind_ok hok
    have hd : vDuration d = .error "duration_minutes" := by
      unfold vDuration
      rw [hlk]
      show (if 1 ≤ n ∧ n ≤ 240 then (Except.ok (some n) : Except String (Option Int))
            else .error "duration_minutes") = .error "duration_minutes"
      rw [if_neg (by omega)]
    rw [hd] at hdm
    exact Except.noConfusion hdm
  · intro d n hlk hle
    apply herr
    intro e hok
    unfold episodeValidate at hok
    obtain ⟨number, hn, hok⟩ := except_bind_ok hok
    have hd : vReqInt d "number" = .error "number" := by
      unfold vReqInt
      rw [hlk]
      show (if 1 ≤ n then (Except.ok n : Except String Int)
            else .error "number") = .error "number"
      rw [if_neg (by omega)]
    rw [hd] at hn
    exact Except.noConfusion hn
  · intro d n hlk hle
    apply herr
    intro e hok
    unfold episodeValidate at hok
    obtain ⟨number, hn, hok⟩ := except_bind_ok hok
    obtain ⟨season, hs, hok⟩ := except_bind_ok hok
    have hd : vSeason d = .error "season" := by
      unfold vSeason
      rw [hlk]
      show (if 1 ≤ n then (Except.ok n : Except String Int)
            else .error "season") = .error "season"
      rw [if_neg (by omega)]
    rw [hd] at hs
    exact Except.noConfusion hs
  · intro num sea dur t h1 h2 h3 h4
    unfold episodeValidate
    have hn : vReqInt [("number", .i num), ("season", .i sea), ("title", .s t),
        ("duration_minutes", .i dur)] "number" = .ok num := by
      show (if 1 ≤ num then (Except.ok num : Except String Int)
            else .error "number") = .ok num
      rw [if_pos h1]
    have hs : vSeason [("number", .i num), ("season", .i sea), ("title", .s t),
        ("duration_minutes", .i dur)] = .ok sea := by
      show (if 1 ≤ sea then (Except.ok sea : Except String Int)
            else .error "season") = .ok sea
      rw [if_pos h2]
    have hd : vDuration [("number", .i num), ("season", .i sea), ("title", .s t),
        ("duration_minutes", .i dur)] = .ok (some dur) := by
      show (if 1 ≤ dur ∧ dur ≤ 240 then (Except.ok (some dur) : Except String (Option Int))
            else .error "duration_minutes") = .ok (some dur)
      rw [if_pos ⟨h3, h4⟩]
    rw [hn, hs, hd]
    rfl
  · intro num t h1
    unfold episodeValidate
    have hn : vReqInt [("number", .i num), ("title", .s t)] "number" = .ok num := by
      show (if 1 ≤ num then (Except.ok num : Except String Int)
            else .error "number") = .ok num
      rw [if_pos h1]
    rw [hn]
    rfl

theorem episode_range_validation_witness :
    (∃ msg, episodeValidate [("number", BVal.i 1), ("title", BVal.s "x"),
        ("duration_minutes", BVal.i 0)] = .error msg) ∧
    (∃ msg, episodeValidate [("number", BVal.i 0), ("title", BVal.s "x")] = .error msg) ∧
    (∃ msg, episodeValidate [("number", BVal.i 1), ("season", BVal.i 0),
        ("title", BVal.s "x")] = .error msg) ∧
    episodeValidate [("number", BVal.i 1), ("season", BVal.i 2), ("title", BVal.s "x"),
        ("duration_minutes", BVal.i 240)]
      = .ok ⟨1, 2, "x", none, none, none, none, some 240, [], false⟩ ∧
    episodeValidate [("number", BVal.i 5), ("title", BVal.s "x")]
      = .ok ⟨5, 1, "x", none, none, none, none, none, [], false⟩ :=
  ⟨episode_range_validation.1 _ 0 rfl (Or.inl (by decide)),
   episode_range_validation.2.1 _ 0 rfl (by decide),
   episode_range_validation.2.2.1 _ 0 rfl (by decide),
   episode_range_validation.2.2.2.1 1 2 240 "x" (by decide) (by decide) (by decide) (by decide),
   episode_range_validation.2.2.2.2 5 "x" (by decide)⟩

/-- C7 counterexample: MongoDB treats `limit(0)` as "no limit", so with
`limit = 0` supplied and one stored document, `GET /episodes/raw` returns a
sequence of length 1, exceeding the supplied limit. -/
theorem limit_zero_counterexample :
    list_episodes_raw (some exRawDB) 0 = .ok [[("number", BVal.i 1)]] ∧
    ¬ (([[("number", BVal.i 1)]] : List Doc).length ≤ 0) :=
  ⟨rfl, by decide⟩

/-- C7 amended: for every supplied positive `limit` value and every store
contents, the sequences returned by `GET /episodes`, `GET /episodes/raw` and
`GET /collections` have length at most `limit`; a `limit` of 0 disables the
cap entirely (and a negative limit caps at its absolute value). -/
theorem limit_caps_positive (db : Option DB) (tag : Option String)
    (featured : Option Bool) (limit : Int) (hpos : 1 ≤ limit) :
    (∀ es, list_episodes db tag featured limit = .ok es → (es.length : Int) ≤ limit) ∧
    (∀ ds, list_episodes_raw db limit = .ok ds → (ds.length : Int) ≤ limit) ∧
    (∀ ds, list_collections db limit = .ok ds → (ds.length : Int) ≤ limit) := by
  cases db with
  | none =>
    exact ⟨fun es h => absurd h (by simp [list_episodes]),
           fun ds h => absurd h (by simp [list_episodes_raw]),
           fun ds h => absurd h (by simp [list_collections])⟩
  | some st =>
    refine ⟨?_, ?_, ?_⟩
    · intro es h
      have h : exceptMapM (fun d => episodeValidate (d.filter (fun kv => kv.1 != "id")))
          ((cursorLimit limit (st.episode.filter (episodeQueryPred tag featured))).map
            serialize_doc) = .ok es := h
      have hlen := exceptMapM_ok_length h
      rw [List.length_map] at hlen
      rw [hlen]
      exact cursorLimit_length_le limit _ hpos
    · intro ds h
      have h : Except.ok ((cursorLimit limit st.episode).map serialize_doc)
          = Except.ok ds := h
      injection h with h
      rw [← h, List.length_map]
      exact cursorLimit_length_le limit _ hpos
    · intro ds h
      have h : Except.ok ((cursorLimit limit st.collection).map serialize_doc)
          = Except.ok ds := h
      injection h with h
      rw [← h, List.length_map]
      exact cursorLimit_length_le limit _ hpos

theorem limit_caps_positive_witness :
    (([[("number", BVal.i 1)]] : List Doc).length : Int) ≤ 1 :=
  (limit_caps_positive (some exRawDB) none none 1 (by decide)).2.1
    [[("number", BVal.i 1)]] rfl

/-- C3: over any stored set of episodes, `GET /episodes` with a (nonempty)
`tag` parameter returns exactly the episodes whose `tags` sequence contains
`tag` as an exact, case-sensitive member; with a `featured` parameter exactly
those whose flag is boolean-equal to the supplied value; with both, exactly
those satisfying both conditions (the empty-string tag case is the separate
no-filter rule of C10, and `limit` is taken large enough not to truncate). -/
theorem episodes_filter_semantics (st : DB) (eps : List (String × Episode))
    (t : String) (f : Bool) (limit : Int)
    (hst : st.episode = eps.map storedEpisode)
    (ht : t ≠ "")
    (hwf : ∀ p ∈ eps, EpisodeWF p.2)
    (hlim : limit = 0 ∨ (eps.length : Int) ≤ limit) :
    list_episodes (some st) (some t) none limit
        = .ok ((eps.filter (fun p => p.2.tags.contains t)).map Prod.snd) ∧
    list_episodes (some st) none (some f) limit
        = .ok ((eps.filter (fun p => p.2.is_featured == f)).map Prod.snd) ∧
    list_episodes (some st) (some t) (some f) limit
        = .ok ((eps.filter (fun p => p.2.tags.contains t && p.2.is_featured == f)).map
            Prod.snd) := by
  refine ⟨?_, ?_, ?_⟩
  · apply list_episodes_stored st eps (some t) none limit _ hst hwf hlim
    intro p _
    show ((if t = "" then true else tagMatches t (storedEpisode p)) && true)
        = p.2.tags.contains t
    rw [if_neg ht, Bool.and_true]
    exact tagMatches_stored t p
  · apply list_episodes_stored st eps none (some f) limit _ hst hwf hlim
    intro p _
    show (true && featMatches f (storedEpisode p)) = (p.2.is_featured == f)
    rw [Bool.true_and]
    exact featMatches_stored f p
  · apply list_episodes_stored st eps (some t) (some f) limit _ hst hwf hlim
    intro p _
    show ((if t = "" then true else tagMatches t (storedEpisode p)) &&
          featMatches f (storedEpisode p))
        = (p.2.tags.contains t && p.2.is_featured == f)
    rw [if_neg ht, tagMatches_stored t p, featMatches_stored f p]

theorem episodes_filter_semantics_witness :
    list_episodes (some exDB3) (some "zoro") none 50
        = .ok ((exEps.filter (fun p => p.2.tags.contains "zoro")).map Prod.snd) ∧
    list_episodes (some exDB3) none (some true) 50
        = .ok ((exEps.filter (fun p => p.2.is_featured == true)).map Prod.snd) ∧
    list_episodes (some exDB3) (some "zoro") (some true) 50
        = .ok ((exEps.filter (fun p =>
            p.2.tags.contains "zoro" && p.2.is_featured == true)).map Prod.snd) :=
  episodes_filter_semantics exDB3 exEps "zoro" true 50 rfl (by decide) (by decide)
    (Or.inr (by decide))

end OnePieceHub
